import Mathlib

/-!
Shallow embedding of `src/myapp/main.py` (a FastAPI service that writes
structured JSON logs and forwards request/business telemetry documents to an
OpenSearch document sink, and answers queries over stored business events).

Conventions of the embedding:
* Python dicts destined for `json.dumps` / the OpenSearch client become
  `JsonVal` values (association lists for objects, insertion order kept).
* `datetime.datetime.utcnow()` readings are passed in explicitly as values of
  type `Int` (microseconds, the resolution of `datetime`); `isoformat` is an
  opaque injective rendering of an instant and `totalSeconds` models
  `timedelta.total_seconds()` exactly over rationals.
* `uuid.uuid4()` is external randomness: the generated id is a `String`
  parameter supplied by the environment.
* The OpenSearch client's `index` call either succeeds or raises; it is
  modelled as a function `Sink := String → JsonVal → Except String Unit`
  (collection name, document body → ok, or the exception's message).
  A `try/except` around it becomes a `match` on the `Except`.
* Each handler returns its HTTP response together with an `Effects` record:
  the log records emitted (in order) and the sink submissions attempted
  (in order).  `raise`-free termination of the handlers is totality here.
-/

/-- JSON values, as produced by `json.dumps` input dicts in `main.py`.
Objects are ordered association lists, mirroring Python dict insertion
order. -/
inductive JsonVal where
  | null : JsonVal
  | str : String → JsonVal
  | int : Int → JsonVal
  | num : ℚ → JsonVal
  | arr : List JsonVal → JsonVal
  | obj : List (String × JsonVal) → JsonVal
deriving Repr

/-- Escape one character the way `json.dumps` does for the characters that
matter here (quote, backslash, and control whitespace). -/
def escapeChar (c : Char) : String :=
  if c = '"' then "\\\""
  else if c = '\\' then "\\\\"
  else if c = '\n' then "\\n"
  else if c = '\r' then "\\r"
  else if c = '\t' then "\\t"
  else String.singleton c

/-- Escape a string for inclusion in a JSON document, per `json.dumps`. -/
def escapeString (s : String) : String :=
  String.join (s.toList.map escapeChar)

mutual

/-- Model of Python's `json.dumps`: serialize a `JsonVal` on a single line. -/
def jsonDumps : JsonVal → String
  | .null => "null"
  | .str s => "\"" ++ escapeString s ++ "\""
  | .int n => toString n
  | .num q => toString q
  | .arr xs => "[" ++ jsonDumpsArr xs ++ "]"
  | .obj fs => "\x7b" ++ jsonDumpsObj fs ++ "\x7d"

/-- Comma-separated serialization of a JSON array's elements. -/
def jsonDumpsArr : List JsonVal → String
  | [] => ""
  | [x] => jsonDumps x
  | x :: y :: xs => jsonDumps x ++ ", " ++ jsonDumpsArr (y :: xs)

/-- Comma-separated serialization of a JSON object's key/value pairs. -/
def jsonDumpsObj : List (String × JsonVal) → String
  | [] => ""
  | [kv] => "\"" ++ escapeString kv.1 ++ "\": " ++ jsonDumps kv.2
  | kv :: kv2 :: fs =>
      "\"" ++ escapeString kv.1 ++ "\": " ++ jsonDumps kv.2 ++ ", " ++
        jsonDumpsObj (kv2 :: fs)

end

/-- Key lookup in a JSON object's field list (first match wins, like reading
a Python dict built by successive distinct-key insertions). -/
def lookupField : List (String × JsonVal) → String → Option JsonVal
  | [], _ => none
  | kv :: fs, k => if kv.1 = k then some kv.2 else lookupField fs k

/-- A `logging.LogRecord` as `main.py` uses it: the built-in fields the
formatter reads (`name`, `levelname`, message) plus the optional contextual
attributes checked with `hasattr` (lines 31–44), each `Option`-tagged.
An unset optional attribute is `none`. -/
structure LogRecord where
  name : String
  levelname : String
  msg : String
  request_id : Option String := none
  user_id : Option Int := none
  event : Option String := none
  method : Option String := none
  path : Option String := none
  status_code : Option Int := none
  duration_s : Option ℚ := none
deriving DecidableEq, Repr

/-- Contribution of an optional string attribute: one field if set, nothing
if unset (an `if hasattr ...` block in `JsonFormatter.format`). -/
def optStrField (k : String) : Option String → List (String × JsonVal)
  | some v => [(k, JsonVal.str v)]
  | none => []

/-- Contribution of an optional integer attribute, as `optStrField`. -/
def optIntField (k : String) : Option Int → List (String × JsonVal)
  | some v => [(k, JsonVal.int v)]
  | none => []

/-- Contribution of an optional numeric (float) attribute, as
`optStrField`. -/
def optNumField (k : String) : Option ℚ → List (String × JsonVal)
  | some v => [(k, JsonVal.num v)]
  | none => []

/-- The dict `log_record` built by `JsonFormatter.format` (lines 25–44):
four unconditional entries, then one entry per optional attribute present on
the record, in source order.  `now` is the `datetime.datetime.utcnow()`
`isoformat` reading taken inside `format`. -/
def JsonFormatter.formatFields (now : String) (record : LogRecord) :
    List (String × JsonVal) :=
  [("@timestamp", JsonVal.str (now ++ "Z")),
   ("level", JsonVal.str record.levelname),
   ("logger", JsonVal.str record.name),
   ("message", JsonVal.str record.msg)]
  ++ optStrField "request_id" record.request_id
  ++ optIntField "user_id" record.user_id
  ++ optStrField "event" record.event
  ++ optStrField "method" record.method
  ++ optStrField "path" record.path
  ++ optIntField "status_code" record.status_code
  ++ optNumField "duration_s" record.duration_s

/-- `JsonFormatter.format` (line 45): `json.dumps` of the assembled dict. -/
def JsonFormatter.format (now : String) (record : LogRecord) : String :=
  jsonDumps (JsonVal.obj (JsonFormatter.formatFields now record))

/-- Collection-name configuration defaults (lines 69–70). -/
def BUSINESS_INDEX : String := "app-logs-business"

/-- Default request-telemetry collection name (line 70). -/
def REQUEST_INDEX : String := "app-logs-requests"

/-- The OpenSearch client's `index` operation: given a collection name and a
document body it either succeeds (`ok`) or raises (`error` carrying the
exception's rendered message `e`).  `refresh=True` is requested on every
call in `main.py`, so it is not a parameter here. -/
def Sink : Type := String → JsonVal → Except String Unit

/-- An HTTP response as the framework sees it: a status code and a JSON
body. -/
structure HttpResponse where
  status_code : Int
  body : JsonVal
deriving Repr

/-- The parts of the inbound `Request` that `log_requests` reads:
`request.method` and `request.url.path`. -/
structure RequestInfo where
  method : String
  path : String
deriving DecidableEq, Repr

/-- Observable effects of one handler invocation: the log records emitted
(in order) and the sink submissions attempted (in order, as
collection-name/document pairs). -/
structure Effects where
  logs : List LogRecord
  indexCalls : List (String × JsonVal)
deriving Repr

/-- Model of `datetime.isoformat()` on an instant (an `Int`, microseconds
since the epoch).  The exact textual rendering is irrelevant to every claim;
only that it is a function of the instant matters, so a decimal rendering
stands in for the ISO-8601 one. -/
def isoformat (t : Int) : String := toString t

/-- Model of `timedelta.total_seconds()`: the difference `d` is in
microseconds, the result in (exact, rational) seconds. -/
def totalSeconds (d : Int) : ℚ := (d : ℚ) / 1000000

/-- The document `doc` built by the middleware `log_requests`
(lines 106–113): request telemetry, timestamped with the `start_time`
captured on arrival (`t0`), with the duration measured to the completion
reading `t1`. -/
def requestTelemetryDoc (request_id : String) (t0 t1 : Int)
    (req : RequestInfo) (status_code : Int) : JsonVal :=
  JsonVal.obj
    [("@timestamp", JsonVal.str (isoformat t0 ++ "Z")),
     ("request_id", JsonVal.str request_id),
     ("method", JsonVal.str req.method),
     ("path", JsonVal.str req.path),
     ("status_code", JsonVal.int status_code),
     ("duration_s", JsonVal.num (totalSeconds (t1 - t0)))]

/-- The middleware `log_requests` (lines 83–119).  Explicit-state reading of
the source: `request_id` is the `uuid.uuid4()` drawn at entry, `t0` the
`utcnow()` reading before `call_next`, `t1` the reading after it completes,
and `response` the downstream handler's response.  Returns the response
handed back to the client together with the effects: the INFO record built
at lines 90–104, one `client.index` attempt on the request collection, and
— only when that attempt raises — the ERROR record of line 117. -/
def log_requests (sink : Sink) (request_id : String) (t0 t1 : Int)
    (req : RequestInfo) (response : HttpResponse) : HttpResponse × Effects :=
  let duration := totalSeconds (t1 - t0)
  let infoRecord : LogRecord :=
    { name := "myapp", levelname := "INFO",
      msg := "request_id=" ++ request_id ++ " method=" ++ req.method ++
        " path=" ++ req.path ++ " status=" ++ toString response.status_code ++
        " duration=" ++ toString duration,
      request_id := some request_id,
      method := some req.method,
      path := some req.path,
      status_code := some response.status_code,
      duration_s := some duration }
  let doc := requestTelemetryDoc request_id t0 t1 req response.status_code
  let sinkLogs : List LogRecord :=
    match sink REQUEST_INDEX doc with
    | Except.ok _ => []
    | Except.error e =>
        [{ name := "myapp", levelname := "ERROR",
           msg := "OpenSearch indexing error (request log): " ++ e }]
  (response, ⟨infoRecord :: sinkLogs, [(REQUEST_INDEX, doc)]⟩)

/-- The business-event document built by `user_login` (lines 127–133);
`now` is the `utcnow().isoformat()` reading taken there. -/
def userLoginDoc (now : String) (user_id : Int) : JsonVal :=
  JsonVal.obj
    [("@timestamp", JsonVal.str (now ++ "Z")),
     ("event", JsonVal.str "user_login"),
     ("user_id", JsonVal.int user_id),
     ("service", JsonVal.str "user-service"),
     ("message", JsonVal.str "User login succeeded")]

/-- The handler for `POST /user/\x7buser_id\x7d/login` (lines 121–139):
emits an INFO record with `user_id`/`event` extras, attempts one
`client.index` on the business collection, logs an ERROR tagged
`business log` if that raises, and returns the success payload either
way (FastAPI wraps the returned dict in a 200 response). -/
def user_login (sink : Sink) (now : String) (user_id : Int) :
    HttpResponse × Effects :=
  let infoRecord : LogRecord :=
    { name := "myapp", levelname := "INFO",
      msg := "user_login user_id=" ++ toString user_id,
      user_id := some user_id,
      event := some "user_login" }
  let doc := userLoginDoc now user_id
  let sinkLogs : List LogRecord :=
    match sink BUSINESS_INDEX doc with
    | Except.ok _ => []
    | Except.error e =>
        [{ name := "myapp", levelname := "ERROR",
           msg := "OpenSearch indexing error (business log): " ++ e }]
  (⟨200, JsonVal.obj [("status", JsonVal.str "ok"),
                      ("user_id", JsonVal.int user_id)]⟩,
   ⟨infoRecord :: sinkLogs, [(BUSINESS_INDEX, doc)]⟩)

/-- The query body built by `get_business_logs` (lines 149–166), following
the source statement by statement: term clauses appended for the supplied
exact-match filters, then a range clause on `@timestamp` when either time
bound is supplied (with `gte`/`lte` entries for whichever bounds are
present), wrapped in a `bool`/`must` query with a descending `@timestamp`
sort and the `size` bound. -/
def buildQueryBody (user_id : Option Int) (event : Option String)
    (start_time end_time : Option Int) (size : Int) : JsonVal :=
  let must0 : List JsonVal := []
  let must1 := match user_id with
    | some u => must0 ++ [JsonVal.obj [("term", JsonVal.obj [("user_id", JsonVal.int u)])]]
    | none => must0
  let must2 := match event with
    | some ev => must1 ++ [JsonVal.obj [("term", JsonVal.obj [("event", JsonVal.str ev)])]]
    | none => must1
  let must3 :=
    if start_time.isSome || end_time.isSome then
      let range0 : List (String × JsonVal) := []
      let range1 := match start_time with
        | some s => range0 ++ [("gte", JsonVal.str (isoformat s ++ "Z"))]
        | none => range0
      let range2 := match end_time with
        | some e => range1 ++ [("lte", JsonVal.str (isoformat e ++ "Z"))]
        | none => range1
      must2 ++ [JsonVal.obj [("range", JsonVal.obj [("@timestamp", JsonVal.obj range2)])]]
    else must2
  JsonVal.obj
    [("query", JsonVal.obj [("bool", JsonVal.obj [("must", JsonVal.arr must3)])]),
     ("sort", JsonVal.arr [JsonVal.obj [("@timestamp", JsonVal.obj [("order", JsonVal.str "desc")])]]),
     ("size", JsonVal.int size)]

/-- One hit in an OpenSearch search response; `source` is the stored
document body `hit["_source"]`. -/
structure SearchHit where
  source : JsonVal
deriving Repr

/-- A search response, reduced to what `get_business_logs` reads:
`resp["hits"]["hits"]`, in sink-returned order. -/
structure SearchResp where
  hits : List SearchHit
deriving Repr

/-- Handler body of `GET /logs/business` (lines 149–170), after parameter
validation: builds the query body, submits it to the sink's `search`
operation on the business collection, and returns the hits' stored bodies
in the sink-returned order (FastAPI wraps the returned list in a 200
response). -/
def get_business_logs (search : String → JsonVal → SearchResp)
    (user_id : Option Int) (event : Option String)
    (start_time end_time : Option Int) (size : Int) : HttpResponse :=
  let query_body := buildQueryBody user_id event start_time end_time size
  let resp := search BUSINESS_INDEX query_body
  ⟨200, JsonVal.arr (resp.hits.map (fun hit => hit.source))⟩

/-- Models FastAPI's validation of the declaration
`size: int = Query(50, ge=1, le=1000)` (line 147), which runs before the
handler body: an absent parameter takes the default 50; a supplied value is
accepted exactly when `1 ≤ v ≤ 1000`, and otherwise the framework rejects
the request with a 422 client error. -/
def validateSize : Option Int → Except Int Int
  | none => Except.ok 50
  | some v => if 1 ≤ v ∧ v ≤ 1000 then Except.ok v else Except.error 422

/-- The route `GET /logs/business` including the framework's `size`
validation: an out-of-range `size` yields the framework's client-error
response and the handler body never runs (no search is submitted);
otherwise the handler body runs with the validated size. -/
def get_business_logs_route (search : String → JsonVal → SearchResp)
    (user_id : Option Int) (event : Option String)
    (start_time end_time : Option Int) (size : Option Int) : HttpResponse :=
  match validateSize size with
  | Except.error status => ⟨status, JsonVal.null⟩
  | Except.ok s => get_business_logs search user_id event start_time end_time s

/-- The handler for `GET /hello` (lines 172–174).  Its body never touches
the OpenSearch client; the `store` parameter records the ambient client
state only to state that independence. -/
def hello (store : Sink) : HttpResponse :=
  let _ := store
  ⟨200, JsonVal.obj [("message", JsonVal.str "Hello, world!")]⟩

/-- Field lookup on a JSON object value (`none` on non-objects). -/
def objLookup : JsonVal → String → Option JsonVal
  | JsonVal.obj fs, k => lookupField fs k
  | _, _ => none

/-- Spec-side description (§4.4): one equality (term) clause for each
supplied exact-match filter, in the order subject identifier then event
tag. -/
def termClauses (user_id : Option Int) (event : Option String) :
    List JsonVal :=
  (user_id.map fun u =>
    JsonVal.obj [("term", JsonVal.obj [("user_id", JsonVal.int u)])]).toList
  ++ (event.map fun ev =>
    JsonVal.obj [("term", JsonVal.obj [("event", JsonVal.str ev)])]).toList

/-- Spec-side description (§4.4): the range clause's entries — an inclusive
lower bound `gte` exactly when a start time is supplied, an inclusive upper
bound `lte` exactly when an end time is supplied. -/
def rangeEntries (start_time end_time : Option Int) :
    List (String × JsonVal) :=
  (start_time.map fun s => ("gte", JsonVal.str (isoformat s ++ "Z"))).toList
  ++ (end_time.map fun e => ("lte", JsonVal.str (isoformat e ++ "Z"))).toList

/-- Spec-side description (§4.4) of the conjunctive filter: the term
clauses, followed by one range clause on the timestamp field present
exactly when at least one time bound is supplied; empty when no filters
are supplied. -/
def specMustClauses (user_id : Option Int) (event : Option String)
    (start_time end_time : Option Int) : List JsonVal :=
  termClauses user_id event
  ++ (if start_time.isSome || end_time.isSome then
        [JsonVal.obj [("range", JsonVal.obj
          [("@timestamp", JsonVal.obj (rangeEntries start_time end_time))])]]
      else [])

/-! ## Theorems -/

/-- C9: `GET /hello` returns status 200 with body
`{"message": "Hello, world!"}` for every state of the document store: the
handler's result does not depend on the store at all. -/
theorem c9_hello_constant (store : Sink) :
    hello store = ⟨200, JsonVal.obj [("message", JsonVal.str "Hello, world!")]⟩
  ∧ ∀ store2 : Sink, hello store2 = hello store :=
  ⟨rfl, fun _ => rfl⟩

/-- C1: if the business-collection sink submission raises, `user_login`
still returns the success payload `{"status": "ok", "user_id": user_id}` —
identical to the response under any other sink behavior, in particular a
succeeding one — and emits an ERROR record whose message carries the tag
`business log` and the underlying cause. -/
theorem c1_login_sink_failure (sink : Sink) (now : String) (uid : Int)
    (e : String)
    (h : sink BUSINESS_INDEX (userLoginDoc now uid) = Except.error e) :
    (user_login sink now uid).1
        = ⟨200, JsonVal.obj [("status", JsonVal.str "ok"),
                             ("user_id", JsonVal.int uid)]⟩
  ∧ (∀ sink2 : Sink, (user_login sink2 now uid).1 = (user_login sink now uid).1)
  ∧ ∃ r ∈ (user_login sink now uid).2.logs,
      r.levelname = "ERROR"
      ∧ (∃ a b, r.msg = a ++ "business log" ++ b)
      ∧ (∃ c d, r.msg = c ++ e ++ d) := by
  refine ⟨rfl, fun _ => rfl, ?_⟩
  refine ⟨⟨"myapp", "ERROR", "OpenSearch indexing error (business log): " ++ e,
      none, none, none, none, none, none, none⟩, ?_, rfl, ?_, ?_⟩
  · simp [user_login, h]
  · exact ⟨"OpenSearch indexing error (", "): " ++ e,
      by rw [← String.append_assoc]; exact congrArg (fun s => s ++ e) rfl⟩
  · exact ⟨"OpenSearch indexing error (business log): ", "",
      by rw [String.append_empty]⟩

/-- C1 witness: a sink that raises `boom` on every submission. -/
theorem c1_login_sink_failure_witness :
    ((fun _ _ => Except.error "boom") : Sink) BUSINESS_INDEX
        (userLoginDoc "T" 7) = Except.error "boom"
  ∧ (user_login (fun _ _ => Except.error "boom") "T" 7).1
      = ⟨200, JsonVal.obj [("status", JsonVal.str "ok"),
                           ("user_id", JsonVal.int 7)]⟩
  ∧ ∃ r ∈ (user_login (fun _ _ => Except.error "boom") "T" 7).2.logs,
      r.levelname = "ERROR"
      ∧ (∃ a b, r.msg = a ++ "business log" ++ b)
      ∧ (∃ c d, r.msg = c ++ "boom" ++ d) := by
  have h := c1_login_sink_failure (fun _ _ => Except.error "boom") "T" 7
    "boom" rfl
  exact ⟨rfl, h.1, h.2.2⟩

/-- C2: the middleware returns exactly the downstream handler's response,
whatever the sink does; and whenever the telemetry submission raises, an
ERROR record carrying the tag `request log` and the underlying cause is
emitted, with no error propagating (the handler is a total function). -/
theorem c2_interceptor_response_preserved (sink : Sink) (rid : String)
    (t0 t1 : Int) (req : RequestInfo) (resp : HttpResponse) :
    (log_requests sink rid t0 t1 req resp).1 = resp
  ∧ ∀ e, sink REQUEST_INDEX (requestTelemetryDoc rid t0 t1 req resp.status_code)
        = Except.error e →
      ∃ r ∈ (log_requests sink rid t0 t1 req resp).2.logs,
        r.levelname = "ERROR"
        ∧ (∃ a b, r.msg = a ++ "request log" ++ b)
        ∧ (∃ c d, r.msg = c ++ e ++ d) := by
  refine ⟨rfl, fun e h => ?_⟩
  refine ⟨⟨"myapp", "ERROR", "OpenSearch indexing error (request log): " ++ e,
      none, none, none, none, none, none, none⟩, ?_, rfl, ?_, ?_⟩
  · simp [log_requests, h]
  · exact ⟨"OpenSearch indexing error (", "): " ++ e,
      by rw [← String.append_assoc]; exact congrArg (fun s => s ++ e) rfl⟩
  · exact ⟨"OpenSearch indexing error (request log): ", "",
      by rw [String.append_empty]⟩

/-- C2 witness: a concrete request through a sink that raises `boom`. -/
theorem c2_interceptor_response_preserved_witness :
    (log_requests (fun _ _ => Except.error "boom") "r" 0 5 ⟨"GET", "/hello"⟩
        ⟨200, JsonVal.null⟩).1 = ⟨200, JsonVal.null⟩
  ∧ ∃ r ∈ (log_requests (fun _ _ => Except.error "boom") "r" 0 5
        ⟨"GET", "/hello"⟩ ⟨200, JsonVal.null⟩).2.logs,
      r.levelname = "ERROR"
      ∧ (∃ a b, r.msg = a ++ "request log" ++ b)
      ∧ (∃ c d, r.msg = c ++ "boom" ++ d) := by
  have h := c2_interceptor_response_preserved (fun _ _ => Except.error "boom")
    "r" 0 5 ⟨"GET", "/hello"⟩ ⟨200, JsonVal.null⟩
  exact ⟨h.1, h.2 "boom" rfl⟩

/-- C7: every `user_login` call attempts exactly one business-document
submission, to the business collection, whose body has event
`"user_login"`, the given `user_id`, service `"user-service"`, message
`"User login succeeded"`, and the current timestamp — for every sink
behavior, succeeding or failing. -/
theorem c7_login_doc_attempted (sink : Sink) (now : String) (uid : Int) :
    (user_login sink now uid).2.indexCalls
        = [(BUSINESS_INDEX, userLoginDoc now uid)]
  ∧ objLookup (userLoginDoc now uid) "event" = some (JsonVal.str "user_login")
  ∧ objLookup (userLoginDoc now uid) "user_id" = some (JsonVal.int uid)
  ∧ objLookup (userLoginDoc now uid) "service"
      = some (JsonVal.str "user-service")
  ∧ objLookup (userLoginDoc now uid) "message"
      = some (JsonVal.str "User login succeeded")
  ∧ objLookup (userLoginDoc now uid) "@timestamp"
      = some (JsonVal.str (now ++ "Z")) :=
  ⟨rfl, rfl, rfl, rfl, rfl, rfl⟩

/-- C6: every request through the middleware attempts exactly one
request-telemetry submission, whose body carries the freshly drawn
`request_id`, the request's method and path, the response's status code,
and a `duration_s` that is nonnegative whenever the completion clock
reading is at least the start reading. -/
theorem c6_request_telemetry_doc (sink : Sink) (rid : String) (t0 t1 : Int)
    (req : RequestInfo) (resp : HttpResponse) (h : t0 ≤ t1) :
    (log_requests sink rid t0 t1 req resp).2.indexCalls
        = [(REQUEST_INDEX, requestTelemetryDoc rid t0 t1 req resp.status_code)]
  ∧ objLookup (requestTelemetryDoc rid t0 t1 req resp.status_code)
      "request_id" = some (JsonVal.str rid)
  ∧ objLookup (requestTelemetryDoc rid t0 t1 req resp.status_code)
      "method" = some (JsonVal.str req.method)
  ∧ objLookup (requestTelemetryDoc rid t0 t1 req resp.status_code)
      "path" = some (JsonVal.str req.path)
  ∧ objLookup (requestTelemetryDoc rid t0 t1 req resp.status_code)
      "status_code" = some (JsonVal.int resp.status_code)
  ∧ objLookup (requestTelemetryDoc rid t0 t1 req resp.status_code)
      "duration_s" = some (JsonVal.num (totalSeconds (t1 - t0)))
  ∧ 0 ≤ totalSeconds (t1 - t0) := by
  refine ⟨rfl, rfl, rfl, rfl, rfl, rfl, ?_⟩
  have hd : (0 : ℚ) ≤ ((t1 - t0 : Int) : ℚ) := by
    exact_mod_cast sub_nonneg.mpr h
  exact div_nonneg hd (by norm_num)

/-- C6 witness: a concrete request whose completion reading follows its
start reading. -/
theorem c6_request_telemetry_doc_witness :
    (0 : Int) ≤ 5
  ∧ (log_requests (fun _ _ => Except.ok ()) "r" 0 5 ⟨"GET", "/hello"⟩
        ⟨200, JsonVal.null⟩).2.indexCalls
      = [(REQUEST_INDEX, requestTelemetryDoc "r" 0 5 ⟨"GET", "/hello"⟩ 200)]
  ∧ 0 ≤ totalSeconds (5 - 0) := by
  have h := c6_request_telemetry_doc (fun _ _ => Except.ok ()) "r" 0 5
    ⟨"GET", "/hello"⟩ ⟨200, JsonVal.null⟩ (by decide)
  exact ⟨by decide, h.1, h.2.2.2.2.2.2⟩

/-- C10: the request-telemetry document is timestamped with the start
reading `t0` captured on arrival (not the completion reading), its
`duration_s` is the elapsed time to completion, and the completion instant
is recovered exactly as timestamp-instant plus `duration_s` (all in
seconds). -/
theorem c10_timestamp_is_start (sink : Sink) (rid : String) (t0 t1 : Int)
    (req : RequestInfo) (resp : HttpResponse) :
    (log_requests sink rid t0 t1 req resp).2.indexCalls
        = [(REQUEST_INDEX, requestTelemetryDoc rid t0 t1 req resp.status_code)]
  ∧ objLookup (requestTelemetryDoc rid t0 t1 req resp.status_code)
      "@timestamp" = some (JsonVal.str (isoformat t0 ++ "Z"))
  ∧ objLookup (requestTelemetryDoc rid t0 t1 req resp.status_code)
      "duration_s" = some (JsonVal.num (totalSeconds (t1 - t0)))
  ∧ totalSeconds t0 + totalSeconds (t1 - t0) = totalSeconds t1 := by
  refine ⟨rfl, rfl, rfl, ?_⟩
  unfold totalSeconds
  push_cast
  ring

/-- C3: the query body built by the handler equals the spec-side shape: a
conjunctive `must` filter made of one term clause per supplied exact-match
filter and a timestamp range clause present exactly when a time bound is
supplied (`gte` iff start, `lte` iff end), with a descending timestamp sort
and the size bound; no filters yields an empty clause list. -/
theorem c3_query_body_shape (u : Option Int) (ev : Option String)
    (st et : Option Int) (size : Int) :
    buildQueryBody u ev st et size
      = JsonVal.obj
          [("query", JsonVal.obj [("bool", JsonVal.obj
              [("must", JsonVal.arr (specMustClauses u ev st et))])]),
           ("sort", JsonVal.arr [JsonVal.obj
              [("@timestamp", JsonVal.obj [("order", JsonVal.str "desc")])]]),
           ("size", JsonVal.int size)]
  ∧ lookupField (rangeEntries st et) "gte"
      = st.map (fun s => JsonVal.str (isoformat s ++ "Z"))
  ∧ lookupField (rangeEntries st et) "lte"
      = et.map (fun e => JsonVal.str (isoformat e ++ "Z"))
  ∧ specMustClauses none none none none = [] := by
  refine ⟨?_, ?_, ?_, rfl⟩
  · cases u <;> cases ev <;> cases st <;> cases et <;>
      simp [buildQueryBody, specMustClauses, termClauses, rangeEntries]
  · cases st <;> cases et <;> simp [rangeEntries, lookupField]
  · cases st <;> cases et <;> simp [rangeEntries, lookupField]

/-- C4: the `size` parameter defaults to 50 when absent, is accepted
exactly when it lies in `[1, 1000]`, and is otherwise rejected with the
framework's 422 client error before the handler body runs; in particular
0 and 1001 are rejected and 1000 is accepted. -/
theorem c4_size_validation :
    validateSize none = Except.ok 50
  ∧ (∀ v : Int, validateSize (some v) = Except.ok v ↔ 1 ≤ v ∧ v ≤ 1000)
  ∧ (∀ v : Int, validateSize (some v) = Except.ok v
      ∨ validateSize (some v) = Except.error 422)
  ∧ validateSize (some 0) = Except.error 422
  ∧ validateSize (some 1001) = Except.error 422
  ∧ validateSize (some 1000) = Except.ok 1000
  ∧ (∀ (search : String → JsonVal → SearchResp) (u : Option Int)
        (ev : Option String) (st et : Option Int),
        get_business_logs_route search u ev st et (some 0)
            = ⟨422, JsonVal.null⟩
      ∧ get_business_logs_route search u ev st et (some 1001)
            = ⟨422, JsonVal.null⟩
      ∧ get_business_logs_route search u ev st et (some 1000)
            = get_business_logs search u ev st et 1000
      ∧ get_business_logs_route search u ev st et none
            = get_business_logs search u ev st et 50)
  ∧ (400 : Int) ≤ 422 ∧ (422 : Int) < 500 := by
  refine ⟨rfl, ?_, ?_, rfl, rfl, rfl, ?_, by norm_num, by norm_num⟩
  · intro v
    simp only [validateSize]
    split
    · simp_all
    · simp_all
  · intro v
    simp only [validateSize]
    split
    · exact Or.inl rfl
    · exact Or.inr rfl
  · intro search u ev st et
    exact ⟨rfl, rfl, rfl, rfl⟩

/-- C8: the query endpoint returns status 200 with exactly the hits'
stored bodies in sink-returned order; zero hits yields the empty array,
not an error. -/
theorem c8_query_results (search : String → JsonVal → SearchResp)
    (u : Option Int) (ev : Option String) (st et : Option Int) (size : Int) :
    (get_business_logs search u ev st et size).status_code = 200
  ∧ (get_business_logs search u ev st et size).body
      = JsonVal.arr ((search BUSINESS_INDEX
          (buildQueryBody u ev st et size)).hits.map SearchHit.source)
  ∧ ((search BUSINESS_INDEX (buildQueryBody u ev st et size)).hits = [] →
      get_business_logs search u ev st et size = ⟨200, JsonVal.arr []⟩) := by
  refine ⟨rfl, rfl, fun h => ?_⟩
  simp [get_business_logs, h]

/-- C8 witness: a sink returning zero hits. -/
theorem c8_query_results_witness :
    (get_business_logs (fun _ _ => ⟨[]⟩) none none none none 50).status_code
        = 200
  ∧ get_business_logs (fun _ _ => ⟨[]⟩) none none none none 50
      = ⟨200, JsonVal.arr []⟩ := by
  have h := c8_query_results (fun _ _ => ⟨[]⟩) none none none none 50
  exact ⟨h.1, h.2.2 rfl⟩

set_option maxHeartbeats 16000000 in
/-- C5: the formatter's output is the single-line JSON serialization of an
object that always carries `@timestamp`, `level`, `logger` and `message`,
carries each optional key exactly when the corresponding record field is
set (with its value), and never carries a null value. -/
theorem c5_formatter_fields (now : String) (r : LogRecord) :
    JsonFormatter.format now r
        = jsonDumps (JsonVal.obj (JsonFormatter.formatFields now r))
  ∧ lookupField (JsonFormatter.formatFields now r) "@timestamp"
      = some (JsonVal.str (now ++ "Z"))
  ∧ lookupField (JsonFormatter.formatFields now r) "level"
      = some (JsonVal.str r.levelname)
  ∧ lookupField (JsonFormatter.formatFields now r) "logger"
      = some (JsonVal.str r.name)
  ∧ lookupField (JsonFormatter.formatFields now r) "message"
      = some (JsonVal.str r.msg)
  ∧ lookupField (JsonFormatter.formatFields now r) "request_id"
      = r.request_id.map JsonVal.str
  ∧ lookupField (JsonFormatter.formatFields now r) "user_id"
      = r.user_id.map JsonVal.int
  ∧ lookupField (JsonFormatter.formatFields now r) "event"
      = r.event.map JsonVal.str
  ∧ lookupField (JsonFormatter.formatFields now r) "method"
      = r.method.map JsonVal.str
  ∧ lookupField (JsonFormatter.formatFields now r) "path"
      = r.path.map JsonVal.str
  ∧ lookupField (JsonFormatter.formatFields now r) "status_code"
      = r.status_code.map JsonVal.int
  ∧ lookupField (JsonFormatter.formatFields now r) "duration_s"
      = r.duration_s.map JsonVal.num
  ∧ ∀ kv ∈ JsonFormatter.formatFields now r, kv.2 ≠ JsonVal.null := by
  obtain ⟨nm, lv, ms, rid, uid, ev, me, pa, sc, du⟩ := r
  refine ⟨rfl, ?_⟩
  cases rid <;> cases uid <;> cases ev <;> cases me <;> cases pa <;>
    cases sc <;> cases du <;>
    simp [JsonFormatter.formatFields, lookupField, optStrField, optIntField,
      optNumField]
